import Mathlib

/-!
Shallow embedding of the PointerJS library (an animated onboarding pointer):
the `Pointer` renderer (src/pointer.ts) and the `FlowManager` sequencer
(src/flow.ts).  JS numbers are modelled as rationals, DOM inline styles as
explicit record fields, and asynchronous effects (smooth scrolling, the
settle timeout, animation frames) as explicit state-transition functions.
-/

namespace PointerJS

/-- Pointer style variants: "arrow" | "hand" | "circle". -/
inductive PointerStyle where
  | arrow
  | hand
  | circle
deriving DecidableEq, Repr

/-- Raw `PointerOptions` as passed by the caller: every field optional,
mirroring the TS interface. -/
structure PointerOptions where
  color : Option String := none
  fontFamily : Option String := none
  fontSize : Option String := none
  animationSpeed : Option ℚ := none
  pointerSize : Option ℚ := none
  pointerStyle : Option PointerStyle := none
deriving DecidableEq, Repr

/-- JS `a || b` for an optional string: `none` and the empty string are
falsy and fall through to the default. -/
def strOr (a : Option String) (d : String) : String :=
  match a with
  | none => d
  | some s => if s = "" then d else s

/-- Options after the defaulting performed in the `Pointer` constructor
(`||` for the strings and the style, `??` for the numbers). -/
structure ResolvedOptions where
  color : String
  fontFamily : String
  fontSize : String
  animationSpeed : ℚ
  pointerSize : ℚ
  pointerStyle : PointerStyle
deriving DecidableEq, Repr

/-- The defaulting in the `Pointer` constructor:
color `#8BD3E6`, fontFamily `inherit`, fontSize `14px`,
animationSpeed 400, pointerSize 32, style arrow. -/
def resolveOptions (o : PointerOptions) : ResolvedOptions where
  color := strOr o.color "#8BD3E6"
  fontFamily := strOr o.fontFamily "inherit"
  fontSize := strOr o.fontSize "14px"
  animationSpeed := o.animationSpeed.getD 400
  pointerSize := o.pointerSize.getD 32
  pointerStyle := o.pointerStyle.getD PointerStyle.arrow

/-- Inline-style state of a DOM element as mutated by the library.
`leftPx`/`topPx` hold the numeric value of `style.left`/`style.top`
(the code always writes pixel values); string-valued styles are kept
verbatim.  `focused` records that `.focus()` was called on the element. -/
structure ElState where
  display : String := ""
  leftPx : ℚ := 0
  topPx : ℚ := 0
  visibility : String := ""
  opacity : String := ""
  transform : String := ""
  transition : String := ""
  textContent : String := ""
  ariaLabel : Option String := none
  focused : Bool := false
deriving DecidableEq, Repr

/-- The closure state captured by `animateTo` for the in-flight
animation-frame callback: start point, destination `x`/`y`, the note and
flags, and the note dimensions measured at animation start. -/
structure AnimData where
  startX : ℚ
  startY : ℚ
  x : ℚ
  y : ℚ
  note : Option String
  isFirstStep : Bool
  flip : Bool
  noteWidth : ℚ
  noteHeight : ℚ
deriving DecidableEq, Repr

/-- State of a `Pointer` instance: current coordinates, the `animating`
mutual-exclusion flag, the two elements in its shadow DOM, the resolved
options, the pending animation-frame callback (`anim`, `none` when no
frame is scheduled), and the pending 10 ms first-step note reveal. -/
structure PointerState where
  currentX : ℚ
  currentY : ℚ
  animating : Bool
  pointerEl : ElState
  noteEl : ElState
  options : ResolvedOptions
  anim : Option AnimData
  pendingReveal : Bool
deriving DecidableEq, Repr

/-- The `Pointer` constructor: resolves options, creates the pointer and
note elements (note starts hidden), and centres the pointer in the
viewport (`window.innerWidth / 2`, `window.innerHeight / 2`). -/
def Pointer.mk' (opts : PointerOptions) (vw vh : ℚ) : PointerState where
  currentX := vw / 2
  currentY := vh / 2
  animating := false
  pointerEl := { leftPx := vw / 2, topPx := vh / 2 }
  noteEl := { display := "none" }
  options := resolveOptions opts
  anim := none
  pendingReveal := false

/-- `Pointer.hide()`: sets `display: none` on both the pointer and the
note element. -/
def Pointer.hide (s : PointerState) : PointerState :=
  { s with
    pointerEl := { s.pointerEl with display := "none" }
    noteEl := { s.noteEl with display := "none" } }

/-- `Pointer.show()`: sets `display: block` on the pointer element and
focuses the note if (and only if) the note is currently visible. -/
def Pointer.show' (s : PointerState) : PointerState :=
  let s := { s with pointerEl := { s.pointerEl with display := "block" } }
  if s.noteEl.display ≠ "none" then
    { s with noteEl := { s.noteEl with focused := true } }
  else s

/-- `Pointer.setInitialPosition(x, y)`: overwrites `currentX`/`currentY`
and the pointer element's `left`/`top` styles directly. -/
def Pointer.setInitialPosition (s : PointerState) (x y : ℚ) : PointerState :=
  { s with
    currentX := x
    currentY := y
    pointerEl := { s.pointerEl with leftPx := x, topPx := y } }

/-- The easing function from `animateTo`:
`t < 0.5 ? 2 * t * t : -1 + (4 - 2 * t) * t`. -/
def ease (t : ℚ) : ℚ :=
  if t < 1 / 2 then 2 * t * t else -1 + (4 - 2 * t) * t

/-- Viewport-relative bounding box of the target element. -/
structure Rect where
  top : ℚ
  bottom : ℚ
  left : ℚ
  right : ℚ
deriving DecidableEq, Repr

/-- The target geometry computed inside `moveToElement` after the settle
delay: flip decision, corner anchoring, then the upper clamp (`min`
against viewport minus pointer minus margin) followed by the lower clamp
(`max` against the 8 px margin), in that order, on both axes.  Returns
`(pointerX, pointerY, flip)`. -/
def pointerTarget (updatedRect : Rect) (vw vh pointerSize noteHeight : ℚ) :
    ℚ × ℚ × Bool :=
  let margin : ℚ := 8
  let offsetY := pointerSize + 8
  let flip : Bool := updatedRect.bottom + offsetY + noteHeight > vh - margin
  let pointerX := updatedRect.right - pointerSize
  let pointerY :=
    if flip then updatedRect.top - pointerSize - margin
    else updatedRect.bottom + margin
  let pointerX := min pointerX (vw - pointerSize - margin)
  let pointerY := min pointerY (vh - pointerSize - margin)
  let pointerX := max margin pointerX
  let pointerY := max margin pointerY
  (pointerX, pointerY, flip)

/-- Truthiness of the optional `note` argument in JS: `undefined` and the
empty string are falsy. -/
def noteTruthy : Option String → Bool
  | some n => n ≠ ""
  | none => false

/-- The off-screen measurement mutations applied to the note element
before reading `offsetWidth`/`offsetHeight`: set the text, show it
invisibly at (-9999, -9999). -/
def measureNote (el : ElState) (note : String) : ElState :=
  { el with
    textContent := note
    display := "block"
    visibility := "hidden"
    opacity := "0"
    leftPx := -9999
    topPx := -9999 }

/-- DOM environment seen by `moveToElement`/`animateTo`: viewport size,
the target element's bounding box in document coordinates (so that its
viewport-relative rect shifts with the scroll position), and the
dimensions the browser reports for the laid-out note element. -/
structure MoveEnv where
  vw : ℚ
  vh : ℚ
  targetDocTop : ℚ
  targetDocBottom : ℚ
  targetLeft : ℚ
  targetRight : ℚ
  noteOffsetW : ℚ
  noteOffsetH : ℚ
deriving DecidableEq, Repr

/-- `target.getBoundingClientRect()` at a given scroll position:
document coordinates minus `scrollY` vertically. -/
def rectAt (env : MoveEnv) (scrollY : ℚ) : Rect where
  top := env.targetDocTop - scrollY
  bottom := env.targetDocBottom - scrollY
  left := env.targetLeft
  right := env.targetRight

/-- The synchronous scroll step at the head of `moveToElement`: if the
target is above the viewport scroll up to 100 px above it, if below
scroll down to 100 px past it; the smooth scroll is modelled as having
completed by the time the 300 ms settle timeout fires. -/
def scrollStep (env : MoveEnv) (scrollY : ℚ) : ℚ :=
  let rect := rectAt env scrollY
  if rect.top < 0 then scrollY + rect.top - 100
  else if rect.bottom > env.vh then scrollY + rect.bottom - env.vh + 100
  else scrollY

/-- `Pointer.animateTo(x, y, note, isFirstStep, flip)` up to scheduling
the first animation frame.  Mutual exclusion: if an animation is already
in flight the call returns immediately with no state change.  Otherwise
it sets the busy flag, measures the note (when one is given), primes the
note opacity/visibility, and registers the frame callback closure. -/
def Pointer.animateTo (env : MoveEnv) (s : PointerState) (x y : ℚ)
    (note : Option String) (isFirstStep flip : Bool) : PointerState :=
  if s.animating then s
  else
    let s1 := { s with animating := true }
    let startX := s1.currentX
    let startY := s1.currentY
    let withNote := noteTruthy note
    let s2 :=
      if withNote then
        { s1 with noteEl :=
            { measureNote s1.noteEl (note.getD "") with
                ariaLabel := some (note.getD "") } }
      else s1
    let noteWidth := if withNote then env.noteOffsetW else 0
    let noteHeight := if withNote then env.noteOffsetH else 0
    let s3 :=
      if isFirstStep && withNote then
        { s2 with noteEl :=
            { s2.noteEl with
                opacity := "0", transition := "opacity 0.4s",
                visibility := "hidden" } }
      else if withNote then
        { s2 with noteEl :=
            { s2.noteEl with
                opacity := "1", transition := "", visibility := "visible" } }
      else s2
    let ad : AnimData :=
      { startX := startX, startY := startY, x := x, y := y,
        note := note, isFirstStep := isFirstStep, flip := flip,
        noteWidth := noteWidth, noteHeight := noteHeight }
    { s3 with anim := some ad }

/-- One execution of the `animate` frame callback.  `elapsedRaw` stands
for `(now - startTime) / duration`; the callback clamps it to 1
(`Math.min`).  Positions the pointer along the eased path, lays out and
flips the note, and on completion (`elapsed = 1`) commits the target as
the new current position, clears the busy flag, and stops rescheduling
frames. -/
def Pointer.animFrame (env : MoveEnv) (s : PointerState) (elapsedRaw : ℚ) :
    PointerState :=
  match s.anim with
  | none => s
  | some a =>
    let elapsed := min elapsedRaw 1
    let t := ease elapsed
    let curX := a.startX + (a.x - a.startX) * t
    let curY := a.startY + (a.y - a.startY) * t
    let s1 := { s with pointerEl :=
        { s.pointerEl with leftPx := curX, topPx := curY } }
    let margin : ℚ := 8
    let flipY := a.flip
    let s2 :=
      if noteTruthy a.note then
        let offsetX := s1.options.pointerSize + 12
        let offsetY := s1.options.pointerSize + 8
        let noteLeft0 := curX + offsetX
        let noteTop := if a.flip then curY - a.noteHeight - 12 else curY + offsetY
        let p1 : ℚ × Bool :=
          if noteLeft0 + a.noteWidth > env.vw - margin then
            (env.vw - a.noteWidth - 12, true)
          else (noteLeft0, false)
        let p2 : ℚ × Bool :=
          if curX + offsetX + a.noteWidth > env.vw - margin && a.flip then
            (env.vw - a.noteWidth - 12, true)
          else p1
        let noteLeft := p2.1
        let flipX := p2.2
        let sA := { s1 with noteEl :=
            { s1.noteEl with
                leftPx := noteLeft, topPx := noteTop,
                display := "block", transform := "" } }
        let sB := { sA with pointerEl :=
            { sA.pointerEl with transform :=
                if flipX && flipY then "scaleX(-1) scaleY(-1)"
                else if flipX then "scaleX(-1)"
                else if flipY then "scaleY(-1)"
                else "" } }
        let sC :=
          if !a.isFirstStep then
            { sB with noteEl :=
                { sB.noteEl with opacity := "1", visibility := "visible" } }
          else sB
        if elapsed = 1 then
          let sD := if a.isFirstStep then { sC with pendingReveal := true } else sC
          { sD with noteEl := { sD.noteEl with focused := true } }
        else sC
      else
        { s1 with
            noteEl := { s1.noteEl with display := "none", ariaLabel := none }
            pointerEl := { s1.pointerEl with transform := "" } }
    if elapsed < 1 then s2
    else { s2 with currentX := a.x, currentY := a.y, animating := false, anim := none }

/-- The 10 ms timeout scheduled at the end of a first-step animation:
reveals the note. -/
def Pointer.revealTimeout (s : PointerState) : PointerState :=
  if s.pendingReveal then
    { s with
        noteEl := { s.noteEl with visibility := "visible", opacity := "1" }
        pendingReveal := false }
  else s

/-- The body of the 300 ms settle timeout inside `moveToElement`: measure
the note height (falling back to 48 when absent or reported as 0),
compute the flip/clamped target via `pointerTarget`, and call
`animateTo`. -/
def Pointer.moveSettle (env : MoveEnv) (s : PointerState) (updatedRect : Rect)
    (note : Option String) (isFirstStep : Bool) : PointerState :=
  let pointerSize := s.options.pointerSize
  let withNote := noteTruthy note
  let s1 :=
    if withNote then { s with noteEl := measureNote s.noteEl (note.getD "") }
    else s
  let noteHeight :=
    if withNote then (if env.noteOffsetH = 0 then 48 else env.noteOffsetH)
    else 48
  let r := pointerTarget updatedRect env.vw env.vh pointerSize noteHeight
  Pointer.animateTo env s1 r.1 r.2.1 note isFirstStep r.2.2

/-- `Pointer.moveToElement(target, note, isFirstStep)`: scroll the target
into view if needed, then (after the settle delay) recompute its rect and
run the settle body.  Returns the new scroll position together with the
new pointer state. -/
def Pointer.moveToElement (env : MoveEnv) (scrollY : ℚ) (s : PointerState)
    (note : Option String) (isFirstStep : Bool) : ℚ × PointerState :=
  let newScroll := scrollStep env scrollY
  (newScroll, Pointer.moveSettle env s (rectAt env newScroll) note isFirstStep)

/-- One onboarding step: a CSS selector, a note, and an optional URL. -/
structure OnboardingStep where
  element : String
  note : String
  url : Option String := none
deriving DecidableEq, Repr

/-- Raw `FlowOptions` as passed by the caller. -/
structure FlowOptions where
  keyboardNavigation : Option Bool := none
deriving DecidableEq, Repr

/-- Static DOM environment seen by the sequencer: the current pathname,
which selectors resolve to an element, and the viewport size used when a
`Pointer` is lazily constructed. -/
structure Doc where
  pathname : String
  query : String → Bool
  vw : ℚ
  vh : ℚ

/-- State of a `FlowManager` together with the document state it owns
(the body `overflow` style).  `keyHandlerAttached` records whether the
keydown listener is installed; `prevOverflow` is the saved scroll-lock
value (`_prevOverflow`, `none` = `undefined`). -/
structure FlowState where
  steps : List OnboardingStep
  currentStep : ℕ
  running : Bool
  pointer : Option PointerState
  pointerOptions : PointerOptions
  keyboardNavigation : Bool
  keyHandlerAttached : Bool
  prevOverflow : Option String
  bodyOverflow : String
deriving DecidableEq, Repr

/-- The `FlowManager` constructor: stores the raw pointer options and
resolves `keyboardNavigation` as `flowOptions.keyboardNavigation !== false`.
`bodyOverflow0` is the document body's current `overflow` style. -/
def FlowManager.mk' (pOpts : PointerOptions) (fOpts : FlowOptions)
    (bodyOverflow0 : String) : FlowState where
  steps := []
  currentStep := 0
  running := false
  pointer := none
  pointerOptions := pOpts
  keyboardNavigation := fOpts.keyboardNavigation ≠ some false
  keyHandlerAttached := false
  prevOverflow := none
  bodyOverflow := bodyOverflow0

/-- Observable actions emitted by the sequencer: warnings logged,
navigations, pointer-move requests (with the step index they belong to),
and one-shot click listeners attached to a target. -/
inductive FlowEvent where
  | warn (msg : String)
  | navigate (url : String)
  | movePointer (stepIdx : ℕ) (selector : String) (note : String) (isFirst : Bool)
  | attachClick (selector : String)
deriving DecidableEq, Repr

/-- `FlowManager.stop()`: clear the running flag, hide the pointer if one
exists, restore the saved body `overflow` (once), and detach the keydown
handler if attached. -/
def FlowState.stop (s : FlowState) : FlowState :=
  let s1 := { s with running := false }
  let s2 := { s1 with pointer := s1.pointer.map Pointer.hide }
  let s3 :=
    match s2.prevOverflow with
    | some v => { s2 with bodyOverflow := v, prevOverflow := none }
    | none => s2
  if s3.keyHandlerAttached then { s3 with keyHandlerAttached := false } else s3

/-- Truthiness of `step.url && window.location.pathname !== step.url`:
the step requests a navigation when its URL is a non-empty string
different from the current pathname. -/
def stepNeedsNav (doc : Doc) (st : OnboardingStep) : Bool :=
  match st.url with
  | some u => u ≠ "" && doc.pathname ≠ u
  | none => false

/-- `FlowManager.runStep()`: stop when not running or past the end;
navigate and suspend when the step carries a different URL; if the
selector resolves, show the pointer, request the move, and attach the
advance-on-click listener; otherwise log a warning and advance
immediately.  The recursion through `advanceStep` terminates because the
index strictly increases towards `steps.length`. -/
def FlowState.runStep (doc : Doc) (s : FlowState) : FlowState × List FlowEvent :=
  if h : s.running = false ∨ s.steps.length ≤ s.currentStep then
    (s.stop, [])
  else
    have hlt : s.currentStep < s.steps.length := by
      rcases Nat.lt_or_ge s.currentStep s.steps.length with h1 | h1
      · exact h1
      · exact absurd (Or.inr h1) h
    let step := s.steps.get ⟨s.currentStep, hlt⟩
    if stepNeedsNav doc step then
      (s, [FlowEvent.navigate (step.url.getD "")])
    else if doc.query step.element then
      ({ s with pointer := s.pointer.map Pointer.show' },
       [FlowEvent.movePointer s.currentStep step.element step.note
          (s.currentStep == 0),
        FlowEvent.attachClick step.element])
    else
      let r := FlowState.runStep doc { s with currentStep := s.currentStep + 1 }
      (r.1,
       FlowEvent.warn ("[PointerJS] Element not found for selector: "
          ++ step.element ++ " (step " ++ toString (s.currentStep + 1) ++ ")")
         :: r.2)
termination_by s.steps.length - s.currentStep
decreasing_by
  omega

/-- `FlowManager.advanceStep()`: increment the index and re-run. -/
def FlowState.advanceStep (doc : Doc) (s : FlowState) : FlowState × List FlowEvent :=
  FlowState.runStep doc { s with currentStep := s.currentStep + 1 }

/-- `FlowManager.goBackStep()`: decrement the index (no-op at 0) and
re-run. -/
def FlowState.goBackStep (doc : Doc) (s : FlowState) : FlowState × List FlowEvent :=
  if 0 < s.currentStep then
    FlowState.runStep doc { s with currentStep := s.currentStep - 1 }
  else (s, [])

/-- The keydown handler installed by `start`: returns immediately when
the flow is not running; Enter/ArrowRight advance, ArrowLeft goes back,
Escape stops. -/
def FlowState.keyHandlerRun (doc : Doc) (s : FlowState) (key : String) :
    FlowState × List FlowEvent :=
  if s.running = false then (s, [])
  else if key = "Enter" ∨ key = "ArrowRight" then s.advanceStep doc
  else if key = "ArrowLeft" then s.goBackStep doc
  else if key = "Escape" then (s.stop, [])
  else (s, [])

/-- `FlowManager.start(steps)`.  The argument is `none` when the caller
passed a non-array value (`!Array.isArray(steps)`); empty or non-array
input logs a warning and leaves the state untouched.  Otherwise: install
the steps, reset the index, mark running, lazily create the pointer,
save and lock body scroll, attach the keydown handler when enabled, and
run the first step. -/
def FlowState.start (doc : Doc) (s : FlowState)
    (stepsArg : Option (List OnboardingStep)) : FlowState × List FlowEvent :=
  match stepsArg with
  | none => (s, [FlowEvent.warn "[PointerJS] No onboarding steps provided."])
  | some steps =>
    if steps.length = 0 then
      (s, [FlowEvent.warn "[PointerJS] No onboarding steps provided."])
    else
      let s1 := { s with steps := steps, currentStep := 0, running := true }
      let s2 :=
        if s1.pointer.isNone then
          { s1 with pointer := some (Pointer.mk' s1.pointerOptions doc.vw doc.vh) }
        else s1
      let s3 := { s2 with prevOverflow := some s2.bodyOverflow, bodyOverflow := "hidden" }
      let s4 :=
        if s3.keyboardNavigation then { s3 with keyHandlerAttached := true }
        else s3
      FlowState.runStep doc s4

/-- `FlowManager.setInitialPosition(x, y)`: lazily create the pointer and
forward to `Pointer.setInitialPosition`. -/
def FlowState.setInitialPosition (doc : Doc) (s : FlowState) (x y : ℚ) : FlowState :=
  let s1 :=
    if s.pointer.isNone then
      { s with pointer := some (Pointer.mk' s.pointerOptions doc.vw doc.vh) }
    else s
  { s1 with pointer := s1.pointer.map (fun p => Pointer.setInitialPosition p x y) }

/-- A mouse event's client coordinates. -/
structure MouseEv where
  clientX : ℚ
  clientY : ℚ
deriving DecidableEq, Repr

/-- The seeding phase of `startOnboarding`: when an event is given, set
the initial pointer position to the click point shifted by the constant
16 px on each axis ("center the pointer on the click"). -/
def seedFromEvent (doc : Doc) (fm : FlowState) (ev : Option MouseEv) : FlowState :=
  match ev with
  | some e => fm.setInitialPosition doc (e.clientX - 16) (e.clientY - 16)
  | none => fm

/-- `startOnboarding(steps, pointerOptions, event, flowOptions)`: reuse
the module-level singleton manager when one exists (`fm?`), otherwise
construct one; seed the pointer position from the event; then start. -/
def startOnboarding (doc : Doc) (fm? : Option FlowState)
    (stepsArg : Option (List OnboardingStep)) (pOpts : PointerOptions)
    (ev : Option MouseEv) (fOpts : FlowOptions) (bodyOverflow0 : String) :
    FlowState × List FlowEvent :=
  let fm := fm?.getD (FlowManager.mk' pOpts fOpts bodyOverflow0)
  let fm := seedFromEvent doc fm ev
  fm.start doc stepsArg

/-! ## Theorems -/

/-- C7: `setInitialPosition(x, y)` overwrites the current coordinates and
the pointer element's `left`/`top` directly, triggers no animation (the
busy flag and the pending frame are untouched), and the FlowManager
wrapper forwards it (lazily creating the pointer), so with no subsequent
animation the reported position is exactly `(x, y)`. -/
theorem setInitialPosition_exact (p : PointerState) (x y : ℚ)
    (doc : Doc) (s : FlowState) :
    (Pointer.setInitialPosition p x y).currentX = x
    ∧ (Pointer.setInitialPosition p x y).currentY = y
    ∧ (Pointer.setInitialPosition p x y).pointerEl.leftPx = x
    ∧ (Pointer.setInitialPosition p x y).pointerEl.topPx = y
    ∧ (Pointer.setInitialPosition p x y).animating = p.animating
    ∧ (Pointer.setInitialPosition p x y).anim = p.anim
    ∧ (FlowState.setInitialPosition doc s x y).pointer.map PointerState.currentX
        = some x
    ∧ (FlowState.setInitialPosition doc s x y).pointer.map PointerState.currentY
        = some y := by
  refine ⟨rfl, rfl, rfl, rfl, rfl, rfl, ?_, ?_⟩ <;>
    rcases hp : s.pointer with _ | p0 <;>
      simp [FlowState.setInitialPosition, Pointer.setInitialPosition, hp]

/-- C6 (counterexample): starting from a pointer whose note is visible,
`hide()` followed by `show()` leaves the note at `display: none` — the
note's visibility is not toggled back on by `show()`, contradicting the
claim as stated. -/
theorem hide_show_note_stays_hidden_cex :
    ({ Pointer.mk' {} 1024 768 with
        noteEl := { display := "block" } } : PointerState).noteEl.display = "block"
    ∧ (Pointer.show' (Pointer.hide
        { Pointer.mk' {} 1024 768 with
            noteEl := { display := "block" } })).noteEl.display = "none"
    ∧ ("none" : String) ≠ "block" := by
  refine ⟨rfl, ?_, by decide⟩
  simp [Pointer.mk', Pointer.hide, Pointer.show']

/-- C6 (amended): `hide()` followed by `show()` restores the pointer's
visibility (`display: block`) without altering the last animated
position (`currentX`/`currentY` and the pointer element's `left`/`top`
are unchanged); the note, however, remains hidden. -/
theorem hide_show_restores_pointer_position (s : PointerState) :
    (Pointer.show' (Pointer.hide s)).pointerEl.display = "block"
    ∧ (Pointer.show' (Pointer.hide s)).currentX = s.currentX
    ∧ (Pointer.show' (Pointer.hide s)).currentY = s.currentY
    ∧ (Pointer.show' (Pointer.hide s)).pointerEl.leftPx = s.pointerEl.leftPx
    ∧ (Pointer.show' (Pointer.hide s)).pointerEl.topPx = s.pointerEl.topPx
    ∧ (Pointer.show' (Pointer.hide s)).noteEl.display = "none" := by
  simp [Pointer.hide, Pointer.show']

/-- C10: in `moveToElement` the `max margin` lower clamp is applied after
the `min` upper clamp, so the computed target is at least the 8 px margin
on both axes for every rectangle, viewport, pointer size and note height;
and on a viewport narrower than `pointerSize + 2 * margin` (here 20 px
against a 32 px pointer) the lower bound wins and the result exceeds the
upper bound `viewport - pointerSize - margin`. -/
theorem pointerTarget_lower_clamp_dominates :
    (∀ (r : Rect) (vw vh ps nh : ℚ),
        8 ≤ (pointerTarget r vw vh ps nh).1
        ∧ 8 ≤ (pointerTarget r vw vh ps nh).2.1)
    ∧ (pointerTarget ⟨0, 10, 0, 100⟩ 20 500 32 48).1 = 8
    ∧ (20 - 32 - 8 : ℚ) < (pointerTarget ⟨0, 10, 0, 100⟩ 20 500 32 48).1 := by
  refine ⟨?_, ?_, ?_⟩
  · intro r vw vh ps nh
    exact ⟨le_max_left _ _, le_max_left _ _⟩
  · norm_num [pointerTarget]
  · norm_num [pointerTarget]

/-- C4: `start` with a non-array argument (modelled as `none`) or an
empty array logs a warning and leaves every field of the FlowManager
state — index, steps, running flag, pointer, scroll lock, keyboard
handler — exactly as it was. -/
theorem start_empty_or_malformed_noop (doc : Doc) (s : FlowState)
    (stepsArg : Option (List OnboardingStep))
    (h : stepsArg = none ∨ stepsArg = some []) :
    FlowState.start doc s stepsArg
      = (s, [FlowEvent.warn "[PointerJS] No onboarding steps provided."]) := by
  rcases h with h | h <;> subst h <;> simp [FlowState.start]

/-- C4 (witness): `start` on the empty list at a concrete state is a
warning-only no-op. -/
theorem start_empty_noop_witness :
    FlowState.start
        { pathname := "/", query := fun _ => false, vw := 800, vh := 600 }
        (FlowManager.mk' {} {} "visible") (some [])
      = (FlowManager.mk' {} {} "visible",
         [FlowEvent.warn "[PointerJS] No onboarding steps provided."]) :=
  start_empty_or_malformed_noop _ _ _ (Or.inr rfl)

/-- C9: the keydown handler installed by `start` checks the running flag
first, so once `stop()` has cleared it, no key — Enter, ArrowRight,
ArrowLeft, Escape or any other — changes the flow state or emits any
event, even though the listener may still be attached. -/
theorem keyHandler_inert_when_not_running (doc : Doc) (s : FlowState)
    (key : String) (h : s.running = false) :
    FlowState.keyHandlerRun doc s key = (s, []) := by
  simp [FlowState.keyHandlerRun, h]

/-- C9 (witness): Escape pressed after the flow stopped leaves a concrete
state unchanged. -/
theorem keyHandler_inert_witness :
    FlowState.keyHandlerRun
        { pathname := "/", query := fun _ => false, vw := 800, vh := 600 }
        (FlowManager.mk' {} {} "visible") "Escape"
      = (FlowManager.mk' {} {} "visible", []) :=
  keyHandler_inert_when_not_running _ _ _ rfl

/-- C8: the easing is the symmetric quadratic ease-in-out of the source:
`2 t^2` below one half, `-1 + (4 - 2 t) t` from one half up, with
`ease 0 = 0`, `ease 1 = 1` and `ease t + ease (1 - t) = 1` on `[0, 1]`;
and when a frame runs at `elapsed = 1` (clamped), the animation target
becomes the new current position and the busy flag clears. -/
theorem ease_symmetric_quadratic_and_completion :
    ease 0 = 0 ∧ ease 1 = 1
    ∧ (∀ t : ℚ, t < 1 / 2 → ease t = 2 * t * t)
    ∧ (∀ t : ℚ, ¬ t < 1 / 2 → ease t = -1 + (4 - 2 * t) * t)
    ∧ (∀ t : ℚ, 0 ≤ t → t ≤ 1 → ease t + ease (1 - t) = 1)
    ∧ (∀ (env : MoveEnv) (s : PointerState) (a : AnimData) (raw : ℚ),
        s.anim = some a → 1 ≤ raw →
          (Pointer.animFrame env s raw).currentX = a.x
          ∧ (Pointer.animFrame env s raw).currentY = a.y
          ∧ (Pointer.animFrame env s raw).animating = false) := by
  refine ⟨by norm_num [ease], by norm_num [ease], ?_, ?_, ?_, ?_⟩
  · intro t ht
    rw [ease, if_pos ht]
  · intro t ht
    rw [ease, if_neg ht]
  · intro t _ _
    by_cases hlt : t < 1 / 2
    · have h2 : ¬ 1 - t < 1 / 2 := by linarith
      rw [ease, ease, if_pos hlt, if_neg h2]
      ring
    · by_cases h2 : 1 - t < 1 / 2
      · rw [ease, ease, if_neg hlt, if_pos h2]
        ring
      · have ht2 : t = 1 / 2 := by
          push_neg at hlt h2
          linarith
        subst ht2
        norm_num [ease]
  · intro env s a raw ha hraw
    have he : min raw 1 = (1 : ℚ) := min_eq_right hraw
    refine ⟨?_, ?_, ?_⟩ <;>
      · simp only [Pointer.animFrame, ha, he]
        norm_num

/-- C8 (witness): the easing branch at `t = 1/4` and the completion of a
concrete animation frame at `elapsed = 1`. -/
theorem ease_completion_witness :
    ease (1 / 4 : ℚ) = 2 * (1 / 4) * (1 / 4)
    ∧ (Pointer.animFrame ⟨800, 600, 0, 10, 0, 100, 0, 0⟩
        { Pointer.mk' {} 800 600 with
            anim := some ⟨0, 0, 50, 60, none, false, false, 0, 0⟩ }
        1).currentX = 50 := by
  constructor
  · exact ease_symmetric_quadratic_and_completion.2.2.1 (1 / 4) (by norm_num)
  · exact (ease_symmetric_quadratic_and_completion.2.2.2.2.2
      ⟨800, 600, 0, 10, 0, 100, 0, 0⟩
      { Pointer.mk' {} 800 600 with
          anim := some ⟨0, 0, 50, 60, none, false, false, 0, 0⟩ }
      ⟨0, 0, 50, 60, none, false, false, 0, 0⟩ 1 rfl (le_refl 1)).1

/-- C1 (counterexample): with an animation already in flight
(`animating = true`), a second `moveToElement` call aimed at a target
below the viewport still changes the scroll position and overwrites the
note element's text — so the second call is not free of observable
effects on the note and the scroll position, contradicting the claim as
stated.  (Only the pointer and the animation state are protected; the
drop happens inside `animateTo`.) -/
theorem second_moveToElement_observable_cex :
    ({ Pointer.mk' {} 800 600 with animating := true } : PointerState).animating
      = true
    ∧ (Pointer.moveToElement ⟨800, 600, 1000, 1040, 10, 110, 200, 48⟩ 0
        { Pointer.mk' {} 800 600 with animating := true }
        (some "hi") false).1 = 540
    ∧ ((540 : ℚ) = 0 → False)
    ∧ (Pointer.moveToElement ⟨800, 600, 1000, 1040, 10, 110, 200, 48⟩ 0
        { Pointer.mk' {} 800 600 with animating := true }
        (some "hi") false).2.noteEl.textContent = "hi"
    ∧ ({ Pointer.mk' {} 800 600 with
          animating := true } : PointerState).noteEl.textContent = "" := by
  refine ⟨rfl, ?_, by norm_num, ?_, rfl⟩
  · norm_num [Pointer.moveToElement, scrollStep, rectAt]
  · simp [Pointer.moveToElement, Pointer.moveSettle, Pointer.animateTo,
      scrollStep, rectAt, noteTruthy, measureNote, Pointer.mk']

/-- C1 (amended): while an animation is in flight, a second
`moveToElement` call does not queue, start, or interrupt anything at the
pointer: the current position, the busy flag, the pending frame callback
and the pointer element are all left exactly as they were (the request is
dropped by the guard in `animateTo`); the call may however still scroll
the page and rewrite the note element. -/
theorem moveToElement_dropped_while_animating (env : MoveEnv) (scrollY : ℚ)
    (s : PointerState) (note : Option String) (isFirstStep : Bool)
    (h : s.animating = true) :
    (Pointer.moveToElement env scrollY s note isFirstStep).2.currentX = s.currentX
    ∧ (Pointer.moveToElement env scrollY s note isFirstStep).2.currentY = s.currentY
    ∧ (Pointer.moveToElement env scrollY s note isFirstStep).2.animating = true
    ∧ (Pointer.moveToElement env scrollY s note isFirstStep).2.anim = s.anim
    ∧ (Pointer.moveToElement env scrollY s note isFirstStep).2.pointerEl
        = s.pointerEl := by
  by_cases hn : noteTruthy note = true <;>
    simp [Pointer.moveToElement, Pointer.moveSettle, Pointer.animateTo,
      measureNote, hn, h]

/-- C1 (witness): the drop at a concrete busy pointer and target. -/
theorem moveToElement_dropped_witness :
    ({ Pointer.mk' {} 800 600 with animating := true } : PointerState).animating
      = true
    ∧ (Pointer.moveToElement ⟨800, 600, 1000, 1040, 10, 110, 200, 48⟩ 0
        { Pointer.mk' {} 800 600 with animating := true }
        (some "hi") false).2.currentX
      = ({ Pointer.mk' {} 800 600 with
            animating := true } : PointerState).currentX :=
  ⟨rfl, (moveToElement_dropped_while_animating
      ⟨800, 600, 1000, 1040, 10, 110, 200, 48⟩ 0
      { Pointer.mk' {} 800 600 with animating := true }
      (some "hi") false rfl).1⟩

/-- C5: `stop()` is idempotent, and a call clears the running flag, hides
any existing pointer, restores the saved body scroll behaviour (clearing
the saved value), and detaches the keyboard handler; `advanceStep` past
the last step lands in the stop branch of `runStep`, so reaching the end
of the list triggers `stop()` automatically. -/
theorem stop_idempotent_and_teardown (doc : Doc) (s : FlowState) :
    FlowState.stop (FlowState.stop s) = FlowState.stop s
    ∧ (FlowState.stop s).running = false
    ∧ (∀ p, s.pointer = some p →
        (FlowState.stop s).pointer = some (Pointer.hide p)
        ∧ (Pointer.hide p).pointerEl.display = "none"
        ∧ (Pointer.hide p).noteEl.display = "none")
    ∧ (∀ v, s.prevOverflow = some v →
        (FlowState.stop s).bodyOverflow = v
        ∧ (FlowState.stop s).prevOverflow = none)
    ∧ (FlowState.stop s).keyHandlerAttached = false
    ∧ (s.running = true → s.steps.length ≤ s.currentStep + 1 →
        FlowState.advanceStep doc s
          = (FlowState.stop { s with currentStep := s.currentStep + 1 }, [])) := by
  refine ⟨?_, ?_, ?_, ?_, ?_, ?_⟩
  · cases hpo : s.prevOverflow <;> cases hp : s.pointer <;>
      cases hk : s.keyHandlerAttached <;>
        simp [FlowState.stop, Pointer.hide, hpo, hp, hk]
  · cases hpo : s.prevOverflow <;> cases hk : s.keyHandlerAttached <;>
      simp [FlowState.stop, hpo, hk]
  · intro p hp
    cases hpo : s.prevOverflow <;> cases hk : s.keyHandlerAttached <;>
      simp [FlowState.stop, Pointer.hide, hpo, hp, hk]
  · intro v hpo
    cases hk : s.keyHandlerAttached <;> simp [FlowState.stop, hpo, hk]
  · cases hpo : s.prevOverflow <;> cases hk : s.keyHandlerAttached <;>
      simp [FlowState.stop, hpo, hk]
  · intro hrun hlen
    rw [FlowState.advanceStep, FlowState.runStep]
    simp [hrun, hlen]

/-- C5 (witness): teardown at a concrete one-step flow: the saved scroll
value is restored, and advancing past the single step stops the flow. -/
theorem stop_teardown_witness :
    (FlowState.stop
        { FlowManager.mk' {} {} "visible" with
            running := true, currentStep := 0,
            steps := [{ element := "#a", note := "A" }],
            prevOverflow := some "visible" }).bodyOverflow = "visible"
    ∧ FlowState.advanceStep
        { pathname := "/", query := fun _ => false, vw := 800, vh := 600 }
        { FlowManager.mk' {} {} "visible" with
            running := true, currentStep := 0,
            steps := [{ element := "#a", note := "A" }],
            prevOverflow := some "visible" }
      = (FlowState.stop
          { FlowManager.mk' {} {} "visible" with
              running := true, currentStep := 1,
              steps := [{ element := "#a", note := "A" }],
              prevOverflow := some "visible" }, []) :=
  ⟨((stop_idempotent_and_teardown
      { pathname := "/", query := fun _ => false, vw := 800, vh := 600 }
      { FlowManager.mk' {} {} "visible" with
          running := true, currentStep := 0,
          steps := [{ element := "#a", note := "A" }],
          prevOverflow := some "visible" }).2.2.2.1 "visible" rfl).1,
   (stop_idempotent_and_teardown
      { pathname := "/", query := fun _ => false, vw := 800, vh := 600 }
      { FlowManager.mk' {} {} "visible" with
          running := true, currentStep := 0,
          steps := [{ element := "#a", note := "A" }],
          prevOverflow := some "visible" }).2.2.2.2.2 rfl (by norm_num)⟩

/-- C2 (counterexample): with `pointerSize: 36` the pointer is seeded at
`(event.x - 16, event.y - 16)`, not at `(event.x - 18, event.y - 18)` as
half the configured icon size would demand: for a click at (100, 100)
the seeded x-coordinate is 84, and 84 is not `100 - 36 / 2`. -/
theorem seed_ignores_pointerSize_cex :
    (startOnboarding
        { pathname := "/", query := fun _ => false, vw := 800, vh := 600 }
        none (some []) { pointerSize := some 36 } (some ⟨100, 100⟩) {}
        "visible").1.pointer.map PointerState.currentX = some 84
    ∧ ((84 : ℚ) = 100 - 36 / 2 → False) := by
  constructor
  · simp [startOnboarding, seedFromEvent, FlowState.setInitialPosition,
      Pointer.setInitialPosition, FlowManager.mk', FlowState.start, Pointer.mk']
    norm_num
  · norm_num

/-- C2 (amended): `startOnboarding` with a triggering event seeds the
pointer position at the event coordinates shifted left and up by the
constant 16 px — half the default icon size of 32 — regardless of the
configured `pointerSize`. -/
theorem seed_offsets_event_by_16 (doc : Doc) (fm : FlowState) (e : MouseEv) :
    (seedFromEvent doc fm (some e)).pointer.map PointerState.currentX
      = some (e.clientX - 16)
    ∧ (seedFromEvent doc fm (some e)).pointer.map PointerState.currentY
      = some (e.clientY - 16) := by
  constructor <;>
    rcases hp : fm.pointer with _ | p <;>
      simp [seedFromEvent, FlowState.setInitialPosition,
        Pointer.setInitialPosition, hp]

/-- Helper: `runStep` emits pointer-move and click-listener events only
for selectors the document resolves; a selector with no matching element
never receives either, anywhere in the run. -/
theorem runStep_no_events_for_missing_selector (doc : Doc) :
    ∀ (n : ℕ) (s : FlowState), s.steps.length - s.currentStep ≤ n →
      ∀ sel, doc.query sel = false →
        (∀ i note first,
          FlowEvent.movePointer i sel note first ∉ (FlowState.runStep doc s).2)
        ∧ FlowEvent.attachClick sel ∉ (FlowState.runStep doc s).2 := by
  intro n
  induction n with
  | zero =>
    intro s hn sel hq
    have hle : s.steps.length ≤ s.currentStep := by omega
    rw [FlowState.runStep]
    simp [hle]
  | succ m ih =>
    intro s hn sel hq
    rw [FlowState.runStep]
    by_cases hg : s.running = false ∨ s.steps.length ≤ s.currentStep
    · simp [hg]
    · have hlt : s.currentStep < s.steps.length := by
        rcases Nat.lt_or_ge s.currentStep s.steps.length with h1 | h1
        · exact h1
        · exact absurd (Or.inr h1) hg
      by_cases hnav : stepNeedsNav doc (s.steps.get ⟨s.currentStep, hlt⟩) = true
      · simp only [List.get_eq_getElem] at hnav
        simp [hg, hnav]
      · by_cases hq2 : doc.query (s.steps.get ⟨s.currentStep, hlt⟩).element = true
        · have hne : sel ≠ (s.steps.get ⟨s.currentStep, hlt⟩).element := by
            intro hc
            rw [hc, hq2] at hq
            exact Bool.noConfusion hq
          simp only [List.get_eq_getElem] at hnav hq2 hne
          simp [hg, hnav, hq2, hne]
        · have ihm := ih { s with currentStep := s.currentStep + 1 }
            (by simp; omega) sel hq
          simp only [List.get_eq_getElem] at hnav hq2
          refine ⟨fun i note first => ?_, ?_⟩
          · simp [hg, hnav, hq2]
            exact ihm.1 i note first
          · simp [hg, hnav, hq2]
            exact ihm.2

/-- C3: when the current step's selector matches no element (and the step
requests no navigation), `runStep` logs a warning and immediately re-runs
at the next index — its result is exactly the advanced run with the
warning prepended — and the trace contains no pointer-move and no
click-listener event for the missing selector, so no animation happens
for that step and nothing waits for user interaction on it. -/
theorem missing_element_warns_and_advances (doc : Doc) (s : FlowState)
    (h1 : s.running = true) (h2 : s.currentStep < s.steps.length)
    (step : OnboardingStep) (hstep : s.steps.get ⟨s.currentStep, h2⟩ = step)
    (h3 : stepNeedsNav doc step = false)
    (h4 : doc.query step.element = false) :
    FlowState.runStep doc s
      = ((FlowState.runStep doc { s with currentStep := s.currentStep + 1 }).1,
         FlowEvent.warn ("[PointerJS] Element not found for selector: "
            ++ step.element ++ " (step " ++ toString (s.currentStep + 1) ++ ")")
           :: (FlowState.runStep doc { s with currentStep := s.currentStep + 1 }).2)
    ∧ (∀ i note first,
        FlowEvent.movePointer i step.element note first
          ∉ (FlowState.runStep doc s).2)
    ∧ FlowEvent.attachClick step.element ∉ (FlowState.runStep doc s).2 := by
  have hg : ¬ (s.running = false ∨ s.steps.length ≤ s.currentStep) := by
    rintro (hc | hc)
    · rw [h1] at hc
      exact Bool.noConfusion hc
    · omega
  refine ⟨?_, ?_⟩
  · have hstep2 := hstep
    simp only [List.get_eq_getElem] at hstep2
    conv_lhs => rw [FlowState.runStep]
    simp [hg, hstep2, h3, h4]
  · exact runStep_no_events_for_missing_selector doc s.steps.length s
      (Nat.sub_le _ _) step.element h4

/-- C3 (witness): the skip at a concrete two-step flow whose first
selector is missing. -/
theorem missing_element_witness :
    FlowState.runStep
        { pathname := "/", query := fun sel => sel == "#a", vw := 800, vh := 600 }
        { FlowManager.mk' {} {} "visible" with
            running := true,
            steps := [{ element := "#missing", note := "X" },
                      { element := "#a", note := "A" }] }
      = ((FlowState.runStep
            { pathname := "/", query := fun sel => sel == "#a", vw := 800, vh := 600 }
            { FlowManager.mk' {} {} "visible" with
                running := true, currentStep := 1,
                steps := [{ element := "#missing", note := "X" },
                          { element := "#a", note := "A" }] }).1,
         FlowEvent.warn ("[PointerJS] Element not found for selector: "
            ++ "#missing" ++ " (step " ++ toString (0 + 1) ++ ")")
           :: (FlowState.runStep
            { pathname := "/", query := fun sel => sel == "#a", vw := 800, vh := 600 }
            { FlowManager.mk' {} {} "visible" with
                running := true, currentStep := 1,
                steps := [{ element := "#missing", note := "X" },
                          { element := "#a", note := "A" }] }).2) :=
  (missing_element_warns_and_advances
    { pathname := "/", query := fun sel => sel == "#a", vw := 800, vh := 600 }
    { FlowManager.mk' {} {} "visible" with
        running := true,
        steps := [{ element := "#missing", note := "X" },
                  { element := "#a", note := "A" }] }
    rfl (by decide) { element := "#missing", note := "X" } rfl rfl rfl).1

end PointerJS
